import Mathlib

/-!
# Verification of the outbreak-prediction engine (Clinical-support-system)

Shallow embedding of the outbreak-prediction subsystem:
`outbreak_predictor.py` (class `OutbreakPredictor`), the daily-prediction
pass of `scheduler.py` (`OutbreakScheduler.run_daily_predictions`), and the
hotspot aggregation of `blueprints/outbreak_routes.py`
(`get_outbreak_hotspots`).

Modelling conventions:
* Calendar days are integers (day indices); the SQL aggregation
  `GROUP BY date(timestamp)` is modelled as a list of `(date, count)` rows.
* Exact rational arithmetic (`ℚ`) stands in for Python floats.
* Opaque external numeric components — the floating-point square root used
  by pandas' `std`, the calendar accessors `dt.dayofweek` / `dt.day` /
  `isocalendar().week` / `dt.month`, the database, and the fitted
  scaler-plus-regressor composites of scikit-learn — are fields of an
  environment `Env`.  A fitted regressor pair is identified by the
  (disease, location) whose data it was fitted on; `Env.rf` / `Env.gb`
  return the composite (scaler ∘ regressor) output of the pair's fitted
  models on an unscaled feature row.
* Python's `int()` conversion truncates toward zero; it is modelled
  exactly by `pyInt`.
* Timestamps are fractional days: `Env.today` is the calendar day of
  `datetime.now()` and `Env.tod ∈ [0, 1)` its time-of-day, which
  `pd.date_range` keeps in the zero-fill merge keys while the aggregated
  query dates are midnight timestamps.
-/

namespace ClinicalSupport

/-! ## Basic numeric helpers -/

/-- Python's `int()` conversion on a float: truncation toward zero. -/
def pyInt (q : ℚ) : ℤ :=
  if 0 ≤ q then ⌊q⌋ else ⌈q⌉

/-- Arithmetic mean of a list of rationals (pandas `Series.mean`);
`0` on the empty list (pandas would give NaN, which never reaches a
consumer in the modelled pipeline). -/
def listMean (l : List ℚ) : ℚ :=
  l.sum / (l.length : ℚ)

/-- Sample variance with `ddof = 1` (the pandas default), defined as `0`
for lists of length ≤ 1 (where pandas gives NaN, always `fillna(0)`-ed or
unused in the source). -/
def sampleVar (l : List ℚ) : ℚ :=
  if l.length ≤ 1 then 0
  else (l.map (fun x => (x - listMean l) * (x - listMean l))).sum / ((l.length : ℚ) - 1)

/-- Minimum of a list (pandas rolling `min`); `0` on the empty list. -/
def listMin : List ℚ → ℚ
  | [] => 0
  | x :: xs => xs.foldl min x

/-- Maximum of a list (pandas rolling `max`); `0` on the empty list. -/
def listMax : List ℚ → ℚ
  | [] => 0
  | x :: xs => xs.foldl max x

/-- pandas `Series.tail(k)`: the last `k` entries. -/
def listTail (k : ℕ) (l : List ℚ) : List ℚ :=
  l.drop (l.length - k)

/-! ## Data model: aggregated case-record query and the daily series

`outbreak_predictor.py`, `fetch_historical_data` (lines 26–65): the SQL
query groups case records by calendar day and counts them, producing one
`(date, cases)` row per day that has any case activity. -/

/-- One row of the aggregated case-record query:
a calendar day together with its aggregated case count. -/
structure QueryRow where
  date : ℤ
  cases : ℕ
  deriving DecidableEq, Repr

/-- The zero-fill/left-merge of `fetch_historical_data`
(`df_complete.merge(df, on='date', how='left').fillna(0)`). Timestamps
are modelled as fractional days: the integer part is the calendar day and
the fractional part the time-of-day. `pd.date_range(start_date, end_date,
freq='D')` keeps `datetime.now()`'s time-of-day `tod` in every entry, so
the merge key of row `i` is the timestamp `(start + i) + tod`, while the
aggregated query dates (`pd.to_datetime` applied to `date(timestamp)`
values) are midnight timestamps, i.e. whole days — the keys only ever
match when `tod = 0`. Each row's date is kept as its calendar day; the
constant `tod` offset of the stored timestamps is absorbed into the
opaque calendar accessors of `Env`. -/
def zeroFill (q : List QueryRow) (tod : ℚ) (start : ℤ) (n : ℕ) : List (ℤ × ℕ) :=
  (List.range n).map (fun (i : ℕ) =>
    ((start + (i : ℤ)),
     match q.find? (fun r => (r.date : ℚ) = ((start + (i : ℤ) : ℤ) : ℚ) + tod) with
     | some r => r.cases
     | none => 0))

/-- `OutbreakPredictor.fetch_historical_data(disease, location, days)`:
`None` when the aggregated query is empty; otherwise the zero-filled daily
series over the inclusive range `[today - days, today]`
(`pd.date_range(start, end, freq='D')` has `days + 1` entries). -/
def fetch_historical_data (q : List QueryRow) (tod : ℚ) (today : ℤ) (days : ℕ) :
    Option (List (ℤ × ℕ)) :=
  if q = [] then none
  else some (zeroFill q tod (today - (days : ℤ)) (days + 1))

/-! ## Environment: the opaque external collaborators -/

/-- External world of the predictor: the case-record database (aggregated
per day for a given disease and location), the calendar accessors used by
pandas' `dt` namespace, the floating-point square root behind `std`, and
the fitted scaler-plus-regressor composites of the two scikit-learn models,
keyed by the (disease, location) pair whose data they were fitted on.
`today` is the calendar day of `datetime.now()` and `tod` its time-of-day
as a fraction of a day (`0 ≤ tod < 1`; `tod = 0` is an exactly-midnight
run). -/
structure Env where
  today : ℤ
  tod : ℚ
  db : String → String → List QueryRow
  sq : ℚ → ℚ
  dayOfWeek : ℤ → ℕ
  dayOfMonth : ℤ → ℕ
  weekOfYear : ℤ → ℕ
  monthOf : ℤ → ℕ
  rf : String → String → List ℚ → ℚ
  gb : String → String → List ℚ → ℚ

/-- Rolling standard deviation entry: pandas `std` is the square root of
the `ddof = 1` sample variance, NaN (then `fillna(0)`) for windows of
length ≤ 1. -/
def stdStat (env : Env) (l : List ℚ) : ℚ :=
  if l.length ≤ 1 then 0 else env.sq (sampleVar l)

/-! ## Feature engineering (`engineer_features`, lines 67–111)

The daily series with its `cases` counts cast to rationals. Each feature
column at row `i` is translated from the corresponding pandas column
expression; pandas `rolling(w, min_periods=1)` at row `i` sees the last
`min(w, i+1)` rows of the prefix ending at `i`. -/

/-- Cast the zero-filled series' integer counts for the float pipeline. -/
def toRatSeries (df : List (ℤ × ℕ)) : List (ℤ × ℚ) :=
  df.map (fun p => (p.1, (p.2 : ℚ)))

/-- The `date` column at row `i`. -/
def dateAt (df : List (ℤ × ℚ)) (i : ℕ) : ℤ :=
  (df.getD i (0, 0)).1

/-- The `cases` column at row `i`. -/
def casesAt (df : List (ℤ × ℚ)) (i : ℕ) : ℚ :=
  (df.getD i (0, 0)).2

/-- The rolling window of `cases` values seen at row `i` with window
size `w` and `min_periods=1`: the last `w` entries of the length-`(i+1)`
series prefix ending at row `i`. -/
def rollWindow (df : List (ℤ × ℚ)) (i w : ℕ) : List ℚ :=
  ((df.take (i + 1)).map (fun p => p.2)).drop (i + 1 - w)

/-- `cases_lag_k` at row `i`: `df['cases'].shift(k).fillna(0)`. -/
def lagAt (df : List (ℤ × ℚ)) (i k : ℕ) : ℚ :=
  if k ≤ i then casesAt df (i - k) else 0

/-- `cases_trend` at row `i`: `df['cases'].diff().fillna(0)`. -/
def trendAt (df : List (ℤ × ℚ)) (i : ℕ) : ℚ :=
  if i = 0 then 0 else casesAt df i - casesAt df (i - 1)

/-- `cases_acceleration` at row `i`: the `diff().fillna(0)` of the
already-materialized `cases_trend` column. -/
def accelAt (df : List (ℤ × ℚ)) (i : ℕ) : ℚ :=
  if i = 0 then 0 else trendAt df i - trendAt df (i - 1)

/-- `growth_rate` at row `i`: `pct_change().fillna(0)` with `±inf`
(division of a nonzero difference by zero) replaced by 0. -/
def growthAt (df : List (ℤ × ℚ)) (i : ℕ) : ℚ :=
  if i = 0 then 0
  else if casesAt df (i - 1) = 0 then 0
  else (casesAt df i - casesAt df (i - 1)) / casesAt df (i - 1)

/-- `cumulative_cases` at row `i`: `df['cases'].cumsum()`. -/
def cumAt (df : List (ℤ × ℚ)) (i : ℕ) : ℚ :=
  ((df.take (i + 1)).map (fun p => p.2)).sum

/-- The feature columns added by `engineer_features`, one constructor per
pandas column, in source order. -/
inductive FeatureCol
  | day_of_week | day_of_month | week_of_year | month | is_weekend
  | cases_7d_mean | cases_7d_std | cases_7d_min | cases_7d_max
  | cases_14d_mean | cases_14d_std
  | cases_lag_1 | cases_lag_3 | cases_lag_7 | cases_lag_14
  | cases_trend | cases_acceleration | growth_rate | cumulative_cases
  deriving DecidableEq, Repr

/-- Value of one engineered feature column at row `i` of the series. -/
def featureValue (env : Env) (col : FeatureCol) (df : List (ℤ × ℚ)) (i : ℕ) : ℚ :=
  match col with
  | .day_of_week => (env.dayOfWeek (dateAt df i) : ℚ)
  | .day_of_month => (env.dayOfMonth (dateAt df i) : ℚ)
  | .week_of_year => (env.weekOfYear (dateAt df i) : ℚ)
  | .month => (env.monthOf (dateAt df i) : ℚ)
  | .is_weekend =>
      if env.dayOfWeek (dateAt df i) = 5 ∨ env.dayOfWeek (dateAt df i) = 6 then 1 else 0
  | .cases_7d_mean => listMean (rollWindow df i 7)
  | .cases_7d_std => stdStat env (rollWindow df i 7)
  | .cases_7d_min => listMin (rollWindow df i 7)
  | .cases_7d_max => listMax (rollWindow df i 7)
  | .cases_14d_mean => listMean (rollWindow df i 14)
  | .cases_14d_std => stdStat env (rollWindow df i 14)
  | .cases_lag_1 => lagAt df i 1
  | .cases_lag_3 => lagAt df i 3
  | .cases_lag_7 => lagAt df i 7
  | .cases_lag_14 => lagAt df i 14
  | .cases_trend => trendAt df i
  | .cases_acceleration => accelAt df i
  | .growth_rate => growthAt df i
  | .cumulative_cases => cumAt df i

/-- `feature_columns` of `prepare_training_data` (lines 121–127), in the
exact source order. -/
def feature_columns : List FeatureCol :=
  [.day_of_week, .day_of_month, .week_of_year, .month, .is_weekend,
   .cases_7d_mean, .cases_7d_std, .cases_7d_min, .cases_7d_max,
   .cases_14d_mean, .cases_14d_std,
   .cases_lag_1, .cases_lag_3, .cases_lag_7, .cases_lag_14,
   .cases_trend, .cases_acceleration, .growth_rate, .cumulative_cases]

/-- The feature row of day `i`: the engineered columns in the order given
by a model's stored column list. -/
def featureRow (env : Env) (cols : List FeatureCol) (df : List (ℤ × ℚ)) (i : ℕ) :
    List ℚ :=
  cols.map (fun c => featureValue env c df i)

/-- The training target of `prepare_training_data`:
`df['cases'].shift(-prediction_horizon)` at row `i`, i.e. the case count
`prediction_horizon` days ahead (defined where `i + horizon` is in range;
rows beyond that are dropped by `dropna`). -/
def targetAt (df : List (ℤ × ℚ)) (horizon i : ℕ) : ℚ :=
  casesAt df (i + horizon)

/-- `prepare_training_data(df, prediction_horizon=7)`: the feature matrix
`X` and target vector `y`, one row per day whose shifted target is still
in range (`dropna` removes the last `horizon` rows). -/
def prepare_training_data (env : Env) (df : List (ℤ × ℚ)) (horizon : ℕ) :
    List (List ℚ) × List ℚ :=
  ((List.range (df.length - horizon)).map (featureRow env feature_columns df),
   (List.range (df.length - horizon)).map (targetAt df horizon))

/-! ## Model lifecycle and prediction -/

/-- A trained model: the pair of fitted regressors is opaque (its
predictions are read off `Env.rf` / `Env.gb` keyed by the training pair),
so the model is identified by the (disease, location) whose data it was
fitted on, together with the stored feature-column order
(`self.model = dict with rf, gb, feature_columns`, lines 183–187). -/
structure TrainedModel where
  disease : String
  location : String
  feature_cols : List FeatureCol
  deriving DecidableEq, Repr

/-- In-memory predictor state. In the source, `is_trained` is a single
boolean set to `True` exactly when `self.model` is assigned (and both
start out empty), so the state collapses to an optional held model; the
flag is the model's presence. -/
structure PredictorState where
  model : Option TrainedModel
  deriving DecidableEq, Repr

/-- `self.is_trained`: whether a trained model is held in memory. -/
def PredictorState.is_trained (st : PredictorState) : Bool :=
  st.model.isSome

/-- `OutbreakPredictor.train_model(disease, location, days=90)`
(lines 140–191): fetch, check ≥ 30 rows, engineer features, check ≥ 20
training rows, fit both regressors (opaque), store the model. Returns the
success flag and the updated state. -/
def train_model (env : Env) (st : PredictorState) (disease location : String)
    (days : ℕ) : Bool × PredictorState :=
  match fetch_historical_data (env.db disease location) env.tod env.today days with
  | none => (false, st)
  | some raw =>
    if raw.length < 30 then (false, st)
    else
      let df := toRatSeries raw
      let X := (prepare_training_data env df 7).1
      if X.length < 20 then (false, st)
      else (true, { model := some ⟨disease, location, feature_columns⟩ })

/-- Risk levels, ordered LOW < MEDIUM < HIGH < CRITICAL. -/
inductive RiskLevel
  | LOW | MEDIUM | HIGH | CRITICAL
  deriving DecidableEq, Repr

/-- Confidence labels. -/
inductive Confidence
  | LOW | MEDIUM | HIGH
  deriving DecidableEq, Repr

/-- `OutbreakPredictor._assess_risk(predicted, mean, std, recent_max,
is_increasing)` (lines 276–292). The `recent_max` argument is accepted but
never read, as in the source. -/
def assessRisk (predicted mean std _recent_max : ℚ) (is_increasing : Bool) :
    RiskLevel :=
  let z_score := if std > 0 then (predicted - mean) / std else 0
  if predicted > mean + 2 * std ∨ z_score > 2 then .CRITICAL
  else if predicted > mean + std ∨ (z_score > 1 ∧ is_increasing) then .HIGH
  else if predicted > mean ∨ (z_score > 1/2 ∧ is_increasing) then .MEDIUM
  else .LOW

/-- `OutbreakPredictor._calculate_confidence(df, recent_std)`
(lines 294–303). -/
def calcConfidence (data_points : ℕ) (recent_std : ℚ) : Confidence :=
  if data_points < 30 then .LOW
  else if data_points < 60 ∨ recent_std > 10 then .MEDIUM
  else .HIGH

/-- `OutbreakPredictor._generate_daily_predictions(df, days_ahead)`
(lines 305–320): day-by-day linear extrapolation
`max(0, int(latest_cases + trend * i))` for `i = 1 … days_ahead`,
where `trend` is the mean of the last 7 entries of the `cases_trend`
column. Each entry is the `day` index with its predicted count. -/
def generate_daily_predictions (cases trend_col : List ℚ) (days_ahead : ℕ) :
    List (ℕ × ℤ) :=
  let latest_cases := cases.getD (cases.length - 1) 0
  let trend := listMean (listTail 7 trend_col)
  (List.range days_ahead).map (fun (j : ℕ) =>
    (j + 1, max 0 (pyInt (latest_cases + trend * ((j : ℚ) + 1)))))

/-- The successful prediction payload (the dict returned at lines
260–274), restricted to the fields the verified claims are about.
`ensemble_avg` records the pre-`int()` local
`predicted_cases = (rf_pred + gb_pred) / 2` of line 231. -/
structure Payload where
  disease : String
  location : String
  ensemble_avg : ℚ
  predicted_cases_7d : ℤ
  current_cases_14d : ℤ
  risk_level : RiskLevel
  confidence : Confidence
  trend_increasing : Bool
  daily_predictions : List (ℕ × ℤ)
  alert_threshold : ℤ
  deriving DecidableEq, Repr

/-- Result of `predict_outbreak`: the structured error payload or the
successful prediction dict. -/
inductive PredictResult
  | error (msg : String)
  | ok (p : Payload)
  deriving DecidableEq, Repr

/-- Whether a result is the structured error payload. -/
def PredictResult.isError : PredictResult → Bool
  | .error _ => true
  | .ok _ => false

/-- The confidence label of a successful result. -/
def PredictResult.confidenceOf : PredictResult → Option Confidence
  | .error _ => none
  | .ok p => some p.confidence

/-- The risk level of a successful result. -/
def PredictResult.riskOf : PredictResult → Option RiskLevel
  | .error _ => none
  | .ok p => some p.risk_level

/-- The forecast together with the pre-`int()` ensemble average of a
successful result. -/
def PredictResult.forecastOf : PredictResult → Option (ℤ × ℚ)
  | .error _ => none
  | .ok p => some (p.predicted_cases_7d, p.ensemble_avg)

/-- The day-by-day forecast breakdown of a successful result. -/
def PredictResult.dailyOf : PredictResult → Option (List (ℕ × ℤ))
  | .error _ => none
  | .ok p => some p.daily_predictions

/-- `OutbreakPredictor.predict_outbreak(disease, location, days_ahead=7)`
(lines 193–274), returning the result and the post-call in-memory state.
Steps, as in the source: fetch the 90-day series (error if `None` or
shorter than 30 rows); train if `not self.is_trained` (error if training
fails); engineer features; take the last day's feature row in the model's
stored column order; read both regressors' outputs (scaling absorbed into
the opaque fitted composite); average, truncate, floor at 0; derive the
14-day baseline, 30-day max, 7-day trend, risk, confidence and the daily
breakdown. The successful branch (lines 216–274) is split out as
`predictBody`: features, ensemble forecast, baseline statistics, risk,
confidence and daily breakdown for a given held model `m` and fetched
series `raw`. -/
def predictBody (env : Env) (m : TrainedModel) (disease location : String)
    (raw : List (ℤ × ℕ)) (days_ahead : ℕ) : Payload :=
  let df := toRatSeries raw
  let cases := df.map (fun p => p.2)
  let latest_features := featureRow env m.feature_cols df (df.length - 1)
  let rf_pred := env.rf m.disease m.location latest_features
  let gb_pred := env.gb m.disease m.location latest_features
  let ensemble_avg := (rf_pred + gb_pred) / 2
  let predicted_cases : ℤ := max 0 (pyInt ensemble_avg)
  let recent_mean := listMean (listTail 14 cases)
  let recent_std := stdStat env (listTail 14 cases)
  let recent_max := listMax (listTail 30 cases)
  let trend_col := (List.range df.length).map (trendAt df)
  let recent_trend := listMean (listTail 7 trend_col)
  let is_increasing : Bool := decide (recent_trend > 0)
  let risk_level := assessRisk (predicted_cases : ℚ) recent_mean recent_std
    recent_max is_increasing
  { disease := disease, location := location,
    ensemble_avg := ensemble_avg,
    predicted_cases_7d := predicted_cases,
    current_cases_14d := pyInt (listTail 14 cases).sum,
    risk_level := risk_level,
    confidence := calcConfidence df.length recent_std,
    trend_increasing := is_increasing,
    daily_predictions := generate_daily_predictions cases trend_col days_ahead,
    alert_threshold := pyInt (recent_mean + 2 * recent_std) }

def predict_outbreak (env : Env) (st : PredictorState) (disease location : String)
    (days_ahead : ℕ) : PredictResult × PredictorState :=
  match fetch_historical_data (env.db disease location) env.tod env.today 90 with
  | none => (.error "Insufficient historical data", st)
  | some raw =>
    if raw.length < 30 then (.error "Insufficient historical data", st)
    else
      let tr := if st.is_trained then (true, st)
                else train_model env st disease location 90
      match tr.2.model, tr.1 with
      | some m, true =>
          (.ok (predictBody env m disease location raw days_ahead), tr.2)
      | _, _ => (.error "Could not train model", tr.2)

/-! ## Scheduler: the daily-prediction pass
(`scheduler.py`, `OutbreakScheduler.run_daily_predictions`, lines 73–146)

The pass iterates over the qualifying (disease, location) combinations;
each pair's body is wrapped in `try/except ... continue`. What a pair's
`predict_outbreak` call does at runtime (returns a result, or raises) is
an input to the model. Database and notification activity is recorded as
an effect trace; the single `db.session.commit()` after the loop closes
the trace. -/

/-- A qualifying (disease, location) combination of the daily pass. -/
structure Combo where
  disease : String
  location : String
  deriving DecidableEq, Repr

/-- Runtime outcome of one pair's `predict_outbreak` call inside the
`try` block: either a returned result or a raised exception. -/
inductive PredOutcome
  | raises
  | ret (r : PredictResult)
  deriving DecidableEq

/-- Observable effects of the daily pass, in order: persisting an
`OutbreakAlert` (`db.session.add`), dispatching a notification
(`send_alert_notification`), logging a pair's error in the `except`
branch, and committing the session. -/
inductive SchedEffect
  | addAlert (disease location : String) (risk : RiskLevel) (predicted : ℤ)
      (conf : Confidence)
  | notify (disease location : String)
  | logError (disease location : String)
  | commit
  deriving DecidableEq, Repr

/-- One loop iteration of `run_daily_predictions` (lines 98–130): on a
returned non-error result, persist the alert and notify when the risk is
CRITICAL or HIGH; on a returned error payload, do nothing; on a raised
exception, log the error and continue. -/
def processPair (outcome : Combo → PredOutcome) (c : Combo) : List SchedEffect :=
  match outcome c with
  | .raises => [.logError c.disease c.location]
  | .ret (.error _) => []
  | .ret (.ok p) =>
      .addAlert c.disease c.location p.risk_level p.predicted_cases_7d p.confidence ::
      (if p.risk_level = .CRITICAL then [.notify c.disease c.location]
       else if p.risk_level = .HIGH then [.notify c.disease c.location]
       else [])

/-- The effect trace of one daily-prediction pass: every combination is
processed in order and the session is committed once, after the loop
(line 132). -/
def run_daily_pass (outcome : Combo → PredOutcome) (combos : List Combo) :
    List SchedEffect :=
  combos.flatMap (processPair outcome) ++ [.commit]

/-! ## Hotspot aggregation
(`blueprints/outbreak_routes.py`, `get_outbreak_hotspots`, lines 210–282) -/

/-- One entry of a hotspot's `diseases` list. -/
structure HotspotDiseaseRisk where
  disease : String
  risk_level : RiskLevel
  predicted_cases : ℤ
  deriving DecidableEq, Repr

/-- One location's hotspot record. -/
structure HotspotEntry where
  location : String
  high_risk_diseases : ℕ
  total_diseases : ℕ
  risk_score : ℕ
  diseases : List HotspotDiseaseRisk
  deriving DecidableEq, Repr

/-- The `risk_scores` lookup table of `get_outbreak_hotspots`. -/
def riskScore : RiskLevel → ℕ
  | .CRITICAL => 4
  | .HIGH => 3
  | .MEDIUM => 2
  | .LOW => 1

/-- The per-disease outcomes a location contributes: the non-error
results of `predictor.predict_outbreak(disease, location)`, with raising
or error-returning diseases skipped (`except: continue` / the
`"error" not in result` guard). -/
def hotspotOks (outcome : String → String → PredOutcome) (location : String)
    (diseases : List String) : List (String × Payload) :=
  diseases.filterMap (fun d =>
    match outcome d location with
    | .raises => none
    | .ret (.error _) => none
    | .ret (.ok p) => some (d, p))

/-- One location's aggregation in `get_outbreak_hotspots`: sum the risk
scores of the successfully predicted diseases, count the HIGH/CRITICAL
ones, and emit an entry only when that count is positive
(`if high_risk_count > 0`). -/
def hotspotFor (outcome : String → String → PredOutcome) (location : String)
    (diseases : List String) : Option HotspotEntry :=
  let oks := hotspotOks outcome location diseases
  let high_risk_count :=
    (oks.filter (fun x =>
      x.2.risk_level = .HIGH ∨ x.2.risk_level = .CRITICAL)).length
  if high_risk_count > 0 then
    some { location := location,
           high_risk_diseases := high_risk_count,
           total_diseases := diseases.length,
           risk_score := (oks.map (fun x => riskScore x.2.risk_level)).sum,
           diseases := oks.map (fun x =>
             { disease := x.1, risk_level := x.2.risk_level,
               predicted_cases := x.2.predicted_cases_7d }) }
  else none

/-- `get_outbreak_hotspots()`: aggregate every location (with its distinct
diseases), keep those with at least one HIGH/CRITICAL disease, and sort by
`risk_score` descending (`hotspots.sort(key=..., reverse=True)`, a stable
sort). -/
def get_outbreak_hotspots (outcome : String → String → PredOutcome)
    (locations : List (String × List String)) : List HotspotEntry :=
  (locations.filterMap (fun ld => hotspotFor outcome ld.1 ld.2)).mergeSort
    (fun a b => b.risk_score ≤ a.risk_score)

/-! ## Spec-side notions used to state the claims -/

/-- Number of distinct days with any case activity in the aggregated
query result (spec-side notion; the aggregation yields one row per active
day, so this is the number of distinct dates). -/
def activeDays (q : List QueryRow) : ℕ :=
  (q.map (fun r => r.date)).dedup.length

/-- Spec-side notion for C3: whether the in-memory state holds a trained
model for this specific (disease, location) pair. -/
def holdsModelFor (st : PredictorState) (disease location : String) : Bool :=
  match st.model with
  | some m => m.disease = disease ∧ m.location = location
  | none => false

/-! ## Helper lemmas -/

theorem zeroFill_length (q : List QueryRow) (tod : ℚ) (start : ℤ) (n : ℕ) :
    (zeroFill q tod start n).length = n := by
  simp only [zeroFill, List.length_map, List.length_range]

theorem zeroFill_getD (q : List QueryRow) (tod : ℚ) (start : ℤ) (n i : ℕ)
    (hi : i < n) :
    (zeroFill q tod start n).getD i (0, 0) =
      (start + (i : ℤ),
       match q.find? (fun r => (r.date : ℚ) = ((start + (i : ℤ) : ℤ) : ℚ) + tod) with
       | some r => r.cases
       | none => 0) := by
  have hlen : i < (zeroFill q tod start n).length := by rwa [zeroFill_length]
  rw [List.getD_eq_getElem?_getD, List.getElem?_eq_getElem hlen]
  simp only [zeroFill, List.getElem_map, List.getElem_range, Option.getD_some]

theorem zeroFill_date (q : List QueryRow) (tod : ℚ) (start : ℤ) (n i : ℕ)
    (hi : i < n) :
    ((zeroFill q tod start n).getD i (0, 0)).1 = start + (i : ℤ) := by
  rw [zeroFill_getD q tod start n i hi]

/-- At an exactly-midnight run the merge keys are whole days, so the
timestamp comparison collapses to a calendar-day comparison. -/
theorem zeroFill_find_midnight (q : List QueryRow) (start : ℤ) (i : ℕ) :
    q.find? (fun r => (r.date : ℚ) = ((start + (i : ℤ) : ℤ) : ℚ) + 0) =
      q.find? (fun r => r.date = start + (i : ℤ)) := by
  have hp : (fun r : QueryRow =>
      decide ((r.date : ℚ) = ((start + (i : ℤ) : ℤ) : ℚ) + 0)) =
      (fun r : QueryRow => decide (r.date = start + (i : ℤ))) := by
    funext r
    rw [decide_eq_decide, add_zero]
    exact Int.cast_inj
  rw [hp]

/-- At any non-midnight run (`0 < tod < 1`) no midnight query date ever
equals a merge key, so the left merge matches nothing. -/
theorem zeroFill_find_tod_ne (q : List QueryRow) (tod : ℚ) (start : ℤ) (i : ℕ)
    (h0 : 0 ≤ tod) (h1 : tod < 1) (hne : tod ≠ 0) :
    q.find? (fun r => (r.date : ℚ) = ((start + (i : ℤ) : ℤ) : ℚ) + tod) = none := by
  rw [List.find?_eq_none]
  intro r _
  simp only [decide_eq_true_eq]
  intro heq
  have hk : ((r.date - (start + (i : ℤ)) : ℤ) : ℚ) = tod := by
    push_cast at heq ⊢
    linarith
  have h0' : (0 : ℤ) ≤ r.date - (start + (i : ℤ)) := by
    rw [← hk] at h0; exact_mod_cast h0
  have h1' : r.date - (start + (i : ℤ)) < 1 := by
    rw [← hk] at h1; exact_mod_cast h1
  have hz : r.date - (start + (i : ℤ)) = 0 := by omega
  apply hne
  rw [← hk, hz]
  simp

theorem fetch_some (q : List QueryRow) (hq : q ≠ []) (tod : ℚ) (today : ℤ)
    (days : ℕ) :
    fetch_historical_data q tod today days =
      some (zeroFill q tod (today - (days : ℤ)) (days + 1)) := by
  simp [fetch_historical_data, hq]

theorem toRatSeries_length (df : List (ℤ × ℕ)) :
    (toRatSeries df).length = df.length := by
  simp only [toRatSeries, List.length_map]

theorem train_model_success (env : Env) (st : PredictorState) (d l : String)
    (hq : env.db d l ≠ []) :
    train_model env st d l 90 = (true, ⟨some ⟨d, l, feature_columns⟩⟩) := by
  unfold train_model
  rw [fetch_some _ hq]
  simp only [prepare_training_data, List.length_map, List.length_range,
    toRatSeries_length, zeroFill_length]
  norm_num

/-- Structure of `predict_outbreak` when the window holds at least one
case record: the result is the successful payload built from the held
model (or, when none is held, the model freshly trained for the requested
pair), and the post-call state holds exactly that model. -/
theorem predict_outbreak_ok (env : Env) (st : PredictorState) (d l : String)
    (n : ℕ) (hq : env.db d l ≠ []) :
    predict_outbreak env st d l n =
      (.ok (predictBody env (st.model.getD ⟨d, l, feature_columns⟩) d l
          (zeroFill (env.db d l) env.tod (env.today - 90) 91) n),
       ⟨some (st.model.getD ⟨d, l, feature_columns⟩)⟩) := by
  unfold predict_outbreak
  rw [fetch_some _ hq]
  dsimp only
  have hlen : ¬((zeroFill (env.db d l) env.tod (env.today - (90 : ℕ)) (90 + 1)).length < 30) := by
    rw [zeroFill_length]; omega
  rw [if_neg hlen]
  cases hst : st.model with
  | some m =>
      have htr : st.is_trained = true := by
        simp [PredictorState.is_trained, hst]
      simp only [htr, if_pos, hst, Option.getD_some]
      norm_num
      cases st
      simp_all
  | none =>
      have htr : st.is_trained = false := by
        simp [PredictorState.is_trained, hst]
      simp only [htr, Bool.false_eq_true, if_false,
        train_model_success env st d l hq, Option.getD_none]
      norm_num

/-! ## Claims -/

/-- C2: structure of the daily series built by `fetch_historical_data`
for a non-empty query (one aggregated row per active day, distinct dates
inside the window, `datetime.now()`'s time-of-day `tod` with
`0 ≤ tod < 1`). The row structure the claim demands always holds: exactly
one row per calendar day of the window — row `i` carrying date
`start + i` — with strictly increasing dates and counts ≥ 0. But the
content half of the claim holds only at an exactly-midnight run
(`tod = 0`): then each day present in the query carries its aggregated
count and each absent day carries 0. At any non-midnight run (`tod ≠ 0`)
the merge keys — date-range timestamps carrying `tod` — never equal the
midnight query dates, so every aggregated count is dropped and the series
is identically zero: the code contradicts the claim (and the spec's own
zero-fill description), a code bug. -/
theorem zero_fill_time_of_day (q : List QueryRow) (tod : ℚ) (today : ℤ)
    (days : ℕ) (hne : q ≠ []) (h0 : 0 ≤ tod) (h1 : tod < 1)
    (hdist : (q.map (fun r => r.date)).Nodup)
    (hrange : ∀ r ∈ q, today - (days : ℤ) ≤ r.date ∧ r.date ≤ today) :
    ∃ df, fetch_historical_data q tod today days = some df ∧
      df.length = days + 1 ∧
      (∀ i, i < days + 1 → (df.getD i (0, 0)).1 = (today - (days : ℤ)) + (i : ℤ)) ∧
      (∀ i j, i < j → j < days + 1 →
        (df.getD i (0, 0)).1 < (df.getD j (0, 0)).1) ∧
      (∀ p ∈ df, (0 : ℤ) ≤ (p.2 : ℤ)) ∧
      (tod ≠ 0 → ∀ p ∈ df, p.2 = 0) ∧
      (tod = 0 →
        (∀ r ∈ q, ((r.date, r.cases) : ℤ × ℕ) ∈ df) ∧
        (∀ d : ℤ, today - (days : ℤ) ≤ d → d ≤ today →
          (∀ r ∈ q, r.date ≠ d) → ((d, 0) : ℤ × ℕ) ∈ df)) := by
  set start : ℤ := today - (days : ℤ) with hstart
  refine ⟨zeroFill q tod start (days + 1), ?_,
    zeroFill_length q tod start (days + 1), ?_, ?_, ?_, ?_, ?_⟩
  · simp [fetch_historical_data, hne, hstart]
  · intro i hi
    rw [zeroFill_date q tod start (days + 1) i hi]
  · intro i j hij hj
    rw [zeroFill_date q tod start (days + 1) i (lt_trans hij hj),
      zeroFill_date q tod start (days + 1) j hj]
    omega
  · intro p _
    exact_mod_cast Nat.zero_le p.2
  · intro htod p hp
    unfold zeroFill at hp
    obtain ⟨i, _, hfi⟩ := List.mem_map.mp hp
    rw [zeroFill_find_tod_ne q tod start i h0 h1 htod] at hfi
    rw [← hfi]
  · intro htod
    subst htod
    constructor
    · intro r hr
      obtain ⟨hr1, hr2⟩ := hrange r hr
      set i : ℕ := (r.date - start).toNat with hi_def
      have hi : i < days + 1 := by omega
      have hdate : start + (i : ℤ) = r.date := by omega
      have hsome : (q.find? (fun r' => r'.date = start + (i : ℤ))).isSome := by
        rw [List.find?_isSome]
        exact ⟨r, hr, by simp [hdate]⟩
      obtain ⟨r', hfind⟩ := Option.isSome_iff_exists.mp hsome
      have hr'mem : r' ∈ q := List.mem_of_find?_eq_some hfind
      have hr'date : r'.date = start + (i : ℤ) := by
        simpa using List.find?_some hfind
      have hrr : r' = r :=
        List.inj_on_of_nodup_map hdist hr'mem hr (by rw [hr'date, hdate])
      have hlen : i < (zeroFill q 0 start (days + 1)).length := by
        rw [zeroFill_length]; exact hi
      have hel : (zeroFill q 0 start (days + 1)).getD i (0, 0) = (r.date, r.cases) := by
        rw [zeroFill_getD q 0 start (days + 1) i hi, zeroFill_find_midnight,
          hfind, hrr, hdate]
      rw [List.getD_eq_getElem _ _ hlen] at hel
      rw [← hel]
      exact List.getElem_mem hlen
    · intro d hd1 hd2 habsent
      set i : ℕ := (d - start).toNat with hi_def
      have hi : i < days + 1 := by omega
      have hdate : start + (i : ℤ) = d := by omega
      have hnone : q.find? (fun r' => r'.date = start + (i : ℤ)) = none := by
        rw [List.find?_eq_none]
        intro r hr
        simp only [decide_eq_true_eq]
        rw [hdate]
        exact habsent r hr
      have hlen : i < (zeroFill q 0 start (days + 1)).length := by
        rw [zeroFill_length]; exact hi
      have hel : (zeroFill q 0 start (days + 1)).getD i (0, 0) = (d, 0) := by
        rw [zeroFill_getD q 0 start (days + 1) i hi, zeroFill_find_midnight,
          hnone, hdate]
      rw [List.getD_eq_getElem _ _ hlen] at hel
      rw [← hel]
      exact List.getElem_mem hlen

/-- Witness for C2 at the failing input: one aggregated row of 5 cases on
day 40 inside the 90-day window ending day 90, with the run at noon
(`tod = 1/2`) — the non-midnight branch applies, so every count of the
built series is 0 and the aggregated count is dropped. -/
theorem zero_fill_time_of_day_witness :
    (([⟨40, 5⟩] : List QueryRow) ≠ [] ∧ (0 : ℚ) ≤ 1/2 ∧ (1/2 : ℚ) < 1 ∧
      (([⟨40, 5⟩] : List QueryRow).map (fun r => r.date)).Nodup ∧
      (∀ r ∈ ([⟨40, 5⟩] : List QueryRow),
        (90 : ℤ) - ((90 : ℕ) : ℤ) ≤ r.date ∧ r.date ≤ 90)) ∧
    ∃ df, fetch_historical_data [⟨40, 5⟩] (1/2) 90 90 = some df ∧
      df.length = 90 + 1 ∧
      (∀ i, i < 90 + 1 →
        (df.getD i (0, 0)).1 = ((90 : ℤ) - ((90 : ℕ) : ℤ)) + (i : ℤ)) ∧
      (∀ i j, i < j → j < 90 + 1 →
        (df.getD i (0, 0)).1 < (df.getD j (0, 0)).1) ∧
      (∀ p ∈ df, (0 : ℤ) ≤ (p.2 : ℤ)) ∧
      ((1/2 : ℚ) ≠ 0 → ∀ p ∈ df, p.2 = 0) ∧
      ((1/2 : ℚ) = 0 →
        (∀ r ∈ ([⟨40, 5⟩] : List QueryRow),
          ((r.date, r.cases) : ℤ × ℕ) ∈ df) ∧
        (∀ d : ℤ, (90 : ℤ) - ((90 : ℕ) : ℤ) ≤ d → d ≤ 90 →
          (∀ r ∈ ([⟨40, 5⟩] : List QueryRow), r.date ≠ d) →
          ((d, 0) : ℤ × ℕ) ∈ df)) :=
  ⟨⟨by decide, by norm_num, by norm_num, by decide, by decide⟩,
   zero_fill_time_of_day [⟨40, 5⟩] (1/2) 90 90
     (by decide) (by norm_num) (by norm_num) (by decide) (by decide)⟩

/-- C4: for all inputs with a nonnegative standard deviation, the risk
assessor implements the ordered first-match decision CRITICAL / HIGH /
MEDIUM / LOW of the spec, with the z-score equal to `(forecast - mean)/std`
when `std ≠ 0` and `0` when `std = 0`, so the division is always guarded
and never a division by zero. -/
theorem assess_risk_first_match (p m s rm : ℚ) (inc : Bool) (hs : 0 ≤ s) :
    (assessRisk p m s rm inc = .CRITICAL ↔
      (p > m + 2 * s ∨ (if s = 0 then 0 else (p - m) / s) > 2)) ∧
    (assessRisk p m s rm inc = .HIGH ↔
      (¬(p > m + 2 * s ∨ (if s = 0 then 0 else (p - m) / s) > 2) ∧
       (p > m + s ∨ ((if s = 0 then 0 else (p - m) / s) > 1 ∧ inc = true)))) ∧
    (assessRisk p m s rm inc = .MEDIUM ↔
      (¬(p > m + 2 * s ∨ (if s = 0 then 0 else (p - m) / s) > 2) ∧
       ¬(p > m + s ∨ ((if s = 0 then 0 else (p - m) / s) > 1 ∧ inc = true)) ∧
       (p > m ∨ ((if s = 0 then 0 else (p - m) / s) > 1/2 ∧ inc = true)))) ∧
    (assessRisk p m s rm inc = .LOW ↔
      (¬(p > m + 2 * s ∨ (if s = 0 then 0 else (p - m) / s) > 2) ∧
       ¬(p > m + s ∨ ((if s = 0 then 0 else (p - m) / s) > 1 ∧ inc = true)) ∧
       ¬(p > m ∨ ((if s = 0 then 0 else (p - m) / s) > 1/2 ∧ inc = true)))) := by
  have hz : (if s > 0 then (p - m) / s else 0) =
      (if s = 0 then 0 else (p - m) / s) := by
    rcases lt_or_eq_of_le hs with h | h
    · rw [if_pos h, if_neg (ne_of_gt h)]
    · rw [if_neg (by rw [← h]; exact lt_irrefl 0), if_pos h.symm]
  unfold assessRisk
  rw [hz]
  set z := (if s = 0 then 0 else (p - m) / s) with hzd
  clear_value z
  dsimp only
  split_ifs with h1 h2 h3 <;>
    refine ⟨?_, ?_, ?_, ?_⟩ <;> simp_all

/-- Witness for C4 at concrete inputs (forecast 5, mean 1, std 1,
increasing). -/
theorem assess_risk_first_match_witness :
    (0 : ℚ) ≤ 1 ∧
    (assessRisk 5 1 1 0 true = .CRITICAL ↔
      ((5 : ℚ) > 1 + 2 * 1 ∨ (if (1 : ℚ) = 0 then 0 else ((5 : ℚ) - 1) / 1) > 2)) :=
  ⟨by norm_num, (assess_risk_first_match 5 1 1 0 true (by norm_num)).1⟩

theorem getD_eq_of_take_succ_eq (df₁ df₂ : List (ℤ × ℚ)) (i j : ℕ)
    (h : df₁.take (i + 1) = df₂.take (i + 1)) (hj : j ≤ i) :
    df₁.getD j (0, 0) = df₂.getD j (0, 0) := by
  have h1 : (df₁.take (i + 1))[j]? = df₁[j]? :=
    List.getElem?_take_of_lt (by omega)
  have h2 : (df₂.take (i + 1))[j]? = df₂[j]? :=
    List.getElem?_take_of_lt (by omega)
  rw [List.getD_eq_getElem?_getD, List.getD_eq_getElem?_getD, ← h1, ← h2, h]

theorem casesAt_eq_of_take_succ_eq (df₁ df₂ : List (ℤ × ℚ)) (i j : ℕ)
    (h : df₁.take (i + 1) = df₂.take (i + 1)) (hj : j ≤ i) :
    casesAt df₁ j = casesAt df₂ j := by
  unfold casesAt
  rw [getD_eq_of_take_succ_eq df₁ df₂ i j h hj]

/-- C6: no look-ahead leakage. Every feature column produced by
`engineer_features` at day `i` is determined solely by the series rows up
to and including `i`: two series with equal `(i+1)`-row prefixes give
identical feature values at `i` (for every environment, i.e. for every
behaviour of the opaque calendar and square-root routines). The training
target added by `prepare_training_data` is the one forward-looking column:
it is determined by the rows up to `i + horizon`, the count `horizon` days
ahead. -/
theorem features_no_lookahead (env : Env) (col : FeatureCol)
    (df₁ df₂ : List (ℤ × ℚ)) (i horizon : ℕ)
    (h : df₁.take (i + 1) = df₂.take (i + 1)) :
    featureValue env col df₁ i = featureValue env col df₂ i ∧
    (∀ dg₁ dg₂ : List (ℤ × ℚ), dg₁.take (i + horizon + 1) = dg₂.take (i + horizon + 1) →
      targetAt dg₁ horizon i = targetAt dg₂ horizon i) := by
  constructor
  · have hget : ∀ j, j ≤ i → df₁.getD j (0, 0) = df₂.getD j (0, 0) :=
      fun j hj => getD_eq_of_take_succ_eq df₁ df₂ i j h hj
    have hcases : ∀ j, j ≤ i → casesAt df₁ j = casesAt df₂ j :=
      fun j hj => casesAt_eq_of_take_succ_eq df₁ df₂ i j h hj
    have hdate : dateAt df₁ i = dateAt df₂ i := by
      unfold dateAt; rw [hget i le_rfl]
    have htrend : ∀ j, j ≤ i → trendAt df₁ j = trendAt df₂ j := by
      intro j hj
      unfold trendAt
      rcases Nat.eq_zero_or_pos j with h0 | h0
      · simp [h0]
      · rw [if_neg (by omega), if_neg (by omega),
          hcases j hj, hcases (j - 1) (by omega)]
    cases col <;>
      simp only [featureValue, rollWindow, lagAt, trendAt, accelAt, growthAt,
        cumAt, h, hdate]
    case cases_lag_1 => rw [hcases (i - 1) (Nat.sub_le i 1)]
    case cases_lag_3 => rw [hcases (i - 3) (Nat.sub_le i 3)]
    case cases_lag_7 => rw [hcases (i - 7) (Nat.sub_le i 7)]
    case cases_lag_14 => rw [hcases (i - 14) (Nat.sub_le i 14)]
    case cases_trend =>
      rw [hcases i le_rfl, hcases (i - 1) (Nat.sub_le i 1)]
    case cases_acceleration =>
      rw [hcases i le_rfl, hcases (i - 1) (Nat.sub_le i 1),
        hcases (i - 1 - 1) (le_trans (Nat.sub_le (i - 1) 1) (Nat.sub_le i 1))]
    case growth_rate =>
      rw [hcases i le_rfl, hcases (i - 1) (Nat.sub_le i 1)]
  · intro dg₁ dg₂ hg
    unfold targetAt
    exact casesAt_eq_of_take_succ_eq dg₁ dg₂ (i + horizon) (i + horizon) hg le_rfl

theorem predict_outbreak_empty (env : Env) (st : PredictorState)
    (d l : String) (n : ℕ) (hq : env.db d l = []) :
    predict_outbreak env st d l n = (.error "Insufficient historical data", st) := by
  unfold predict_outbreak
  simp [fetch_historical_data, hq]

/-- A concrete environment used by witnesses and counterexamples: all
opaque routines are constant, the database holds a single aggregated row
(4 cases on day 90, the last day of the window ending `today = 90`), and
the run happens at exactly midnight (`tod = 0`), the one time-of-day at
which the source's left merge matches the query rows. -/
def envA : Env where
  today := 90
  tod := 0
  db := fun _ _ => [⟨90, 4⟩]
  sq := fun _ => 0
  dayOfWeek := fun _ => 0
  dayOfMonth := fun _ => 0
  weekOfYear := fun _ => 0
  monthOf := fun _ => 0
  rf := fun _ _ _ => 0
  gb := fun _ _ _ => 0

/-- C1 (amended): `predict_outbreak` returns the structured
"Insufficient historical data" payload exactly when the 90-day window
holds no case record at all; with at least one record the zero-filled
series always has 91 rows, so the fewer-than-30-rows check never fires
(even when fewer than 30 distinct days have activity), no exception
escapes (the embedding is total), and the error payload carries no risk
level. -/
theorem insufficient_data_error_iff (env : Env) (st : PredictorState)
    (d l : String) (n : ℕ) :
    ((predict_outbreak env st d l n).1 = .error "Insufficient historical data" ↔
      env.db d l = []) ∧
    ((predict_outbreak env st d l n).1.riskOf.isSome = true ↔ env.db d l ≠ []) := by
  rcases eq_or_ne (env.db d l) [] with hq | hq
  · rw [predict_outbreak_empty env st d l n hq]
    simp [PredictResult.riskOf, hq]
  · rw [predict_outbreak_ok env st d l n hq]
    simp [PredictResult.riskOf, hq]

/-- Counterexample to C1 as stated: a window with exactly one active day
(fewer than 30 distinct days of case activity) does not produce the error
payload — the prediction succeeds and carries a risk level. -/
theorem insufficient_data_cex :
    activeDays (envA.db "Malaria" "Nairobi") < 30 ∧
    (predict_outbreak envA ⟨none⟩ "Malaria" "Nairobi" 7).1.isError = false ∧
    (predict_outbreak envA ⟨none⟩ "Malaria" "Nairobi" 7).1.riskOf.isSome = true := by
  refine ⟨by decide, ?_, ?_⟩ <;>
    rw [predict_outbreak_ok _ _ _ _ _ (by decide)] <;> rfl

/-- Witness for C6 at a concrete input: two series agreeing on their
first two rows and differing afterwards give the same 7-day rolling mean
at day 1. -/
theorem features_no_lookahead_witness :
    (([(0, 1), (1, 2), (2, 3)] : List (ℤ × ℚ)).take (1 + 1) =
      ([(0, 1), (1, 2), (9, 9)] : List (ℤ × ℚ)).take (1 + 1)) ∧
    featureValue envA .cases_7d_mean [(0, 1), (1, 2), (2, 3)] 1 =
      featureValue envA .cases_7d_mean [(0, 1), (1, 2), (9, 9)] 1 :=
  ⟨by decide,
   (features_no_lookahead envA .cases_7d_mean [(0, 1), (1, 2), (2, 3)]
     [(0, 1), (1, 2), (9, 9)] 1 0 (by decide)).1⟩

/-- C10: with the default 90-day lookback, a successful prediction's
confidence label is never LOW: whenever at least one case record exists
the zero-filled series spans the full 91-day range, so
`_calculate_confidence`'s fewer-than-30-data-points branch is unreachable
and the label is always MEDIUM or HIGH (and an unsuccessful call carries
no confidence label at all). -/
theorem confidence_never_low (env : Env) (st : PredictorState)
    (d l : String) (n : ℕ) :
    (predict_outbreak env st d l n).1.confidenceOf = none ∨
    (predict_outbreak env st d l n).1.confidenceOf = some .MEDIUM ∨
    (predict_outbreak env st d l n).1.confidenceOf = some .HIGH := by
  rcases eq_or_ne (env.db d l) [] with hq | hq
  · rw [predict_outbreak_empty env st d l n hq]
    left; rfl
  · rw [predict_outbreak_ok env st d l n hq]
    right
    have hconf : (predictBody env (st.model.getD ⟨d, l, feature_columns⟩) d l
        (zeroFill (env.db d l) env.tod (env.today - 90) 91) n).confidence =
        calcConfidence 91
          (stdStat env (listTail 14 ((toRatSeries
            (zeroFill (env.db d l) env.tod (env.today - 90) 91)).map (fun p => p.2)))) := by
      simp only [predictBody, toRatSeries_length, zeroFill_length]
    rw [PredictResult.confidenceOf, hconf]
    unfold calcConfidence
    rw [if_neg (by omega)]
    by_cases h : 91 < 60 ∨
        stdStat env (listTail 14 ((toRatSeries
          (zeroFill (env.db d l) env.tod (env.today - 90) 91)).map (fun p => p.2))) > 10
    · left; rw [if_pos h]
    · right; rw [if_neg h]

/-- The model fitted on the "Malaria" / "Nairobi" data. -/
def modelMalaria : TrainedModel := ⟨"Malaria", "Nairobi", feature_columns⟩

/-- A predictor state already holding the Malaria/Nairobi model. -/
def stMalaria : PredictorState := ⟨some modelMalaria⟩

/-- Like `envA`, but the fitted regressor composites answer 100 for the
models fitted on "Malaria" data and 0 for all others, making the model
used for a forecast observable. -/
def envB : Env :=
  { envA with
    rf := fun d _ _ => if d = "Malaria" then 100 else 0,
    gb := fun d _ _ => if d = "Malaria" then 100 else 0 }

/-- C3 (amended): the in-memory model cache is not keyed by
(disease, location). `predict_outbreak` trains a model for the requested
pair only when `is_trained` is false (no model at all is held); when any
trained model is held, the state is left unchanged and that model —
whatever pair it was trained for — is the one the prediction uses. -/
theorem model_cache_unkeyed (env : Env) (st : PredictorState) (d l : String)
    (n : ℕ) :
    (st.is_trained = true → (predict_outbreak env st d l n).2 = st) ∧
    (st.is_trained = false → env.db d l ≠ [] →
      (predict_outbreak env st d l n).2 = ⟨some ⟨d, l, feature_columns⟩⟩) ∧
    (∀ m, st.model = some m → env.db d l ≠ [] →
      (predict_outbreak env st d l n).1 =
        .ok (predictBody env m d l
          (zeroFill (env.db d l) env.tod (env.today - 90) 91) n)) := by
  refine ⟨?_, ?_, ?_⟩
  · intro htr
    rcases eq_or_ne (env.db d l) [] with hq | hq
    · rw [predict_outbreak_empty env st d l n hq]
    · rw [predict_outbreak_ok env st d l n hq]
      cases st with
      | mk mo =>
        cases mo with
        | none => simp [PredictorState.is_trained] at htr
        | some m => rfl
  · intro htr hq
    rw [predict_outbreak_ok env st d l n hq]
    cases st with
    | mk mo =>
      cases mo with
      | some m => simp [PredictorState.is_trained] at htr
      | none => rfl
  · intro m hm hq
    rw [predict_outbreak_ok env st d l n hq, hm]
    rfl

/-- Witness for C3 (amended) at a concrete input: a held Malaria/Nairobi
model is left in place and reused by a Cholera/Mombasa prediction. -/
theorem model_cache_unkeyed_witness :
    (stMalaria.is_trained = true ∧
      (predict_outbreak envA stMalaria "Cholera" "Mombasa" 7).2 = stMalaria) ∧
    (stMalaria.model = some modelMalaria ∧ envA.db "Cholera" "Mombasa" ≠ [] ∧
      (predict_outbreak envA stMalaria "Cholera" "Mombasa" 7).1 =
        .ok (predictBody envA modelMalaria "Cholera" "Mombasa"
          (zeroFill (envA.db "Cholera" "Mombasa") envA.tod (envA.today - 90) 91) 7)) :=
  ⟨⟨rfl, (model_cache_unkeyed envA stMalaria "Cholera" "Mombasa" 7).1 rfl⟩,
   ⟨rfl, by decide,
    (model_cache_unkeyed envA stMalaria "Cholera" "Mombasa" 7).2.2 modelMalaria
      rfl (by decide)⟩⟩

/-- Counterexample to C3 as stated: with a Malaria/Nairobi model in
memory, a prediction for Cholera/Mombasa — a pair for which no trained
model is held — trains nothing: the post-call state still holds the
Malaria/Nairobi model, and the forecast is exactly the Malaria-fitted
regressors' output (100), so a model trained for a different
(disease, location) pair is reused for the prediction. -/
theorem model_cache_cex :
    holdsModelFor stMalaria "Cholera" "Mombasa" = false ∧
    (predict_outbreak envB stMalaria "Cholera" "Mombasa" 7).2.model =
      some modelMalaria ∧
    (predict_outbreak envB stMalaria "Cholera" "Mombasa" 7).1.forecastOf =
      some (100, 100) := by
  refine ⟨by decide, ?_, ?_⟩
  · rw [predict_outbreak_ok _ _ _ _ _ (by decide)]; rfl
  · rw [predict_outbreak_ok _ _ _ _ _ (by decide)]
    simp only [PredictResult.forecastOf, predictBody, stMalaria, modelMalaria,
      Option.getD_some]
    norm_num [envB, envA, pyInt]

theorem max_zero_pyInt (q : ℚ) : max 0 (pyInt q) = max 0 ⌊q⌋ := by
  unfold pyInt
  split_ifs with h
  · rfl
  · push_neg at h
    have hc : ⌈q⌉ ≤ 0 := Int.ceil_le.mpr (by exact_mod_cast h.le)
    have hf : ⌊q⌋ ≤ 0 := le_trans (Int.floor_le_ceil q) hc
    rw [max_eq_left hc, max_eq_left hf]

/-- Like `envA`, but both fitted regressor composites answer 1.7,
exposing the integer conversion applied to the ensemble average. -/
def envC : Env :=
  { envA with
    rf := fun _ _ _ => 17/10,
    gb := fun _ _ _ => 17/10 }

/-- C5 (amended): for every successful prediction, the forecasted case
count equals the average of the two regressors' single-row outputs
(`ensemble_avg`), converted by Python's `int()` — truncation toward zero,
not rounding to nearest — and floored at 0; equivalently it is
`max 0 ⌊avg⌋`, and in particular never negative. -/
theorem forecast_truncated_ensemble_mean (env : Env) (st : PredictorState)
    (d l : String) (n : ℕ) :
    ∀ pa ∈ (predict_outbreak env st d l n).1.forecastOf,
      pa.1 = max 0 (pyInt pa.2) ∧ pa.1 = max 0 ⌊pa.2⌋ ∧ 0 ≤ pa.1 := by
  rcases eq_or_ne (env.db d l) [] with hq | hq
  · rw [predict_outbreak_empty env st d l n hq]
    intro pa hpa
    simp [PredictResult.forecastOf] at hpa
  · rw [predict_outbreak_ok env st d l n hq]
    intro pa hpa
    simp only [PredictResult.forecastOf, predictBody, Option.mem_def,
      Option.some_inj] at hpa
    subst hpa
    exact ⟨rfl, max_zero_pyInt _, le_max_left _ _⟩

/-- Witness for C5 (amended) at a concrete input: both regressors answer
1.7, the ensemble average is 1.7 and the published forecast is
`max 0 ⌊1.7⌋ = 1`. -/
theorem forecast_truncated_ensemble_mean_witness :
    ((1 : ℤ), (17/10 : ℚ)) ∈
      (predict_outbreak envC ⟨none⟩ "Malaria" "Nairobi" 7).1.forecastOf ∧
    (1 : ℤ) = max 0 ⌊(17/10 : ℚ)⌋ := by
  have hmem : (predict_outbreak envC ⟨none⟩ "Malaria" "Nairobi" 7).1.forecastOf =
      some ((1 : ℤ), (17/10 : ℚ)) := by
    rw [predict_outbreak_ok _ _ _ _ _ (by decide)]
    simp only [PredictResult.forecastOf, predictBody, Option.getD_none]
    norm_num [envC, envA, pyInt, Int.floor_eq_iff]
  exact ⟨by rw [hmem]; rfl,
    (forecast_truncated_ensemble_mean envC ⟨none⟩ "Malaria" "Nairobi" 7
      ((1 : ℤ), (17/10 : ℚ)) (by rw [hmem]; rfl)).2.1⟩

/-- Counterexample to C5 as stated: with both regressor outputs 1.7 the
ensemble average is 1.7, the source publishes `max(0, int(1.7)) = 1`,
while "rounded to an integer" gives `max(0, round(1.7)) = 2`. -/
theorem forecast_rounding_cex :
    (predict_outbreak envC ⟨none⟩ "Malaria" "Nairobi" 7).1.forecastOf =
      some ((1 : ℤ), (17/10 : ℚ)) ∧
    max 0 (round ((17/10 : ℚ))) = 2 := by
  constructor
  · rw [predict_outbreak_ok _ _ _ _ _ (by decide)]
    simp only [PredictResult.forecastOf, predictBody, Option.getD_none]
    norm_num [envC, envA, pyInt, Int.floor_eq_iff]
  · norm_num [round_eq, Int.floor_eq_iff]

theorem generate_daily_length (c t : List ℚ) (n : ℕ) :
    (generate_daily_predictions c t n).length = n := by
  simp only [generate_daily_predictions, List.length_map, List.length_range]

theorem generate_daily_getD (c t : List ℚ) (n i : ℕ) (hi : i < n) :
    (generate_daily_predictions c t n).getD i (0, 0) =
      (i + 1, max 0 ⌊c.getD (c.length - 1) 0 +
        listMean (listTail 7 t) * ((i : ℚ) + 1)⌋) := by
  have hlen : i < (generate_daily_predictions c t n).length := by
    rw [generate_daily_length]; exact hi
  rw [List.getD_eq_getElem _ _ hlen]
  simp only [generate_daily_predictions, List.getElem_map, List.getElem_range,
    max_zero_pyInt]

/-- C8 (amended): the day-by-day forecast breakdown of a successful
prediction with horizon `days_ahead` is the linear extrapolation of
`_generate_daily_predictions`: it has exactly `days_ahead` entries, entry
`i` (`1 ≤ i ≤ days_ahead`) equals
`max(0, int(last_observed_count + trend · i))` — Python `int()` truncation
(equivalently `max 0 ⌊last + trend·i⌋`), not rounding to nearest — where
`trend` is the mean of the last 7 daily first differences; and the
breakdown is computed independently of the ensemble regressors: changing
the fitted models' outputs leaves it unchanged. -/
theorem daily_breakdown_linear :
    (∀ (c t : List ℚ) (n : ℕ), (generate_daily_predictions c t n).length = n) ∧
    (∀ (c t : List ℚ) (n i : ℕ), i < n →
      (generate_daily_predictions c t n).getD i (0, 0) =
        (i + 1, max 0 ⌊c.getD (c.length - 1) 0 +
          listMean (listTail 7 t) * ((i : ℚ) + 1)⌋)) ∧
    (∀ (env : Env) (st : PredictorState) (d l : String) (n : ℕ),
      env.db d l ≠ [] →
      (predict_outbreak env st d l n).1.dailyOf =
        some (generate_daily_predictions
          ((toRatSeries (zeroFill (env.db d l) env.tod (env.today - 90) 91)).map
            (fun p => p.2))
          ((List.range
              (toRatSeries (zeroFill (env.db d l) env.tod (env.today - 90) 91)).length).map
            (trendAt (toRatSeries (zeroFill (env.db d l) env.tod (env.today - 90) 91)))) n)) ∧
    (∀ (env : Env) (f g : String → String → List ℚ → ℚ) (st : PredictorState)
      (d l : String) (n : ℕ),
      (predict_outbreak { env with rf := f, gb := g } st d l n).1.dailyOf =
        (predict_outbreak env st d l n).1.dailyOf) := by
  refine ⟨generate_daily_length, generate_daily_getD, ?_, ?_⟩
  · intro env st d l n hq
    rw [predict_outbreak_ok env st d l n hq]
    simp only [PredictResult.dailyOf, predictBody]
  · intro env f g st d l n
    rcases eq_or_ne (env.db d l) [] with hq | hq
    · rw [predict_outbreak_empty env st d l n hq,
        predict_outbreak_empty { env with rf := f, gb := g } st d l n hq]
    · rw [predict_outbreak_ok env st d l n hq,
        predict_outbreak_ok { env with rf := f, gb := g } st d l n hq]
      simp only [PredictResult.dailyOf, predictBody]

/-- Witness for C8 (amended) at concrete inputs: breakdown entry 0 of a
7-day horizon over a one-day series, and the breakdown of a concrete
successful prediction. -/
theorem daily_breakdown_linear_witness :
    ((0 : ℕ) < 7 ∧
      (generate_daily_predictions [4] [0] 7).getD 0 (0, 0) =
        (0 + 1, max 0 ⌊([4] : List ℚ).getD (([4] : List ℚ).length - 1) 0 +
          listMean (listTail 7 [0]) * ((0 : ℚ) + 1)⌋)) ∧
    (envA.db "Malaria" "Nairobi" ≠ [] ∧
      (predict_outbreak envA ⟨none⟩ "Malaria" "Nairobi" 7).1.dailyOf =
        some (generate_daily_predictions
          ((toRatSeries (zeroFill (envA.db "Malaria" "Nairobi")
              envA.tod (envA.today - 90) 91)).map (fun p => p.2))
          ((List.range
              (toRatSeries (zeroFill (envA.db "Malaria" "Nairobi")
                envA.tod (envA.today - 90) 91)).length).map
            (trendAt (toRatSeries (zeroFill (envA.db "Malaria" "Nairobi")
              envA.tod (envA.today - 90) 91)))) 7)) :=
  ⟨⟨by decide, daily_breakdown_linear.2.1 [4] [0] 7 0 (by decide)⟩,
   ⟨by decide,
    daily_breakdown_linear.2.2.1 envA ⟨none⟩ "Malaria" "Nairobi" 7 (by decide)⟩⟩

unseal Rat.mul Rat.inv Rat.add Rat.sub in
/-- Counterexample to C8 as stated: over the concrete one-record window
(4 cases on the last day) at an exactly-midnight run (`envA.tod = 0`, the
one time-of-day at which the merge keeps the aggregated counts in the
`cases` column), the series' last count is 4 and its 7-day trend is 4/7;
the source's first breakdown entry is `max(0, int(4 + 4/7)) = 4`, while
the claim's `max(0, round(4 + 4/7 · 1)) = 5`. (At a non-midnight run the
C2 merge bug zeroes the column, the last count and trend are 0, and both
formulas agree at 0 — the truncation-vs-rounding divergence needs a
nonzero series.) -/
theorem daily_rounding_cex :
    (((predict_outbreak envA ⟨none⟩ "Malaria" "Nairobi" 7).1.dailyOf.getD
        []).getD 0 (0, 0) = (1, 4) ∧
      ((toRatSeries (zeroFill (envA.db "Malaria" "Nairobi")
          envA.tod (envA.today - 90) 91)).map (fun p => p.2)).getD
        (((toRatSeries (zeroFill (envA.db "Malaria" "Nairobi")
          envA.tod (envA.today - 90) 91)).map (fun p => p.2)).length - 1) 0 = 4 ∧
      listMean (listTail 7
        ((List.range
            (toRatSeries (zeroFill (envA.db "Malaria" "Nairobi")
              envA.tod (envA.today - 90) 91)).length).map
          (trendAt (toRatSeries (zeroFill (envA.db "Malaria" "Nairobi")
            envA.tod (envA.today - 90) 91))))) = 4/7) ∧
    max 0 (round ((4 : ℚ) + (4/7) * 1)) = 5 := by
  refine ⟨⟨?_, by decide, by decide⟩, by norm_num [round_eq, Int.floor_eq_iff]⟩
  rw [predict_outbreak_ok _ _ _ _ _ (by decide)]
  decide

theorem commit_not_mem_processPair (outcome : Combo → PredOutcome) (c : Combo) :
    SchedEffect.commit ∉ processPair outcome c := by
  unfold processPair
  cases outcome c with
  | raises => simp
  | ret r =>
      cases r with
      | error msg => simp
      | ok p =>
          dsimp only
          split_ifs <;> simp

/-- C7: in every daily-prediction pass, an `OutbreakAlert` is persisted
for every pair whose prediction returns a successful result, a
notification is dispatched for every HIGH or CRITICAL result, exactly one
session commit happens and it closes the pass, and a pair whose
prediction raises is logged and skipped without disturbing the effects of
the remaining pairs or the final commit. -/
theorem daily_pass_isolation (outcome : Combo → PredOutcome)
    (combos : List Combo) :
    ((run_daily_pass outcome combos).count .commit = 1 ∧
      (run_daily_pass outcome combos).getLast? = some .commit) ∧
    (∀ c ∈ combos, ∀ p, outcome c = .ret (.ok p) →
      SchedEffect.addAlert c.disease c.location p.risk_level
          p.predicted_cases_7d p.confidence ∈ run_daily_pass outcome combos) ∧
    (∀ c ∈ combos, ∀ p, outcome c = .ret (.ok p) →
      (p.risk_level = .HIGH ∨ p.risk_level = .CRITICAL) →
      SchedEffect.notify c.disease c.location ∈ run_daily_pass outcome combos) ∧
    (∀ (xs ys : List Combo) (c : Combo), outcome c = .raises →
      run_daily_pass outcome (xs ++ c :: ys) =
        xs.flatMap (processPair outcome) ++
          SchedEffect.logError c.disease c.location ::
            (ys.flatMap (processPair outcome) ++ [.commit])) := by
  refine ⟨⟨?_, ?_⟩, ?_, ?_, ?_⟩
  · unfold run_daily_pass
    rw [List.count_append, List.count_singleton]
    have hz : (combos.flatMap (processPair outcome)).count .commit = 0 := by
      rw [List.count_eq_zero, List.mem_flatMap]
      rintro ⟨c, _, hc⟩
      exact commit_not_mem_processPair outcome c hc
    simp [hz]
  · exact List.getLast?_concat _
  · intro c hc p hp
    unfold run_daily_pass
    refine List.mem_append_left _ (List.mem_flatMap.mpr ⟨c, hc, ?_⟩)
    unfold processPair
    rw [hp]
    exact List.mem_cons_self _ _
  · intro c hc p hp hrisk
    unfold run_daily_pass
    refine List.mem_append_left _ (List.mem_flatMap.mpr ⟨c, hc, ?_⟩)
    unfold processPair
    rw [hp]
    dsimp only
    rcases hrisk with h | h <;> simp [h]
  · intro xs ys c hc
    unfold run_daily_pass
    rw [List.flatMap_append, List.flatMap_cons]
    have hpc : processPair outcome c = [.logError c.disease c.location] := by
      unfold processPair
      rw [hc]
    rw [hpc]
    simp

/-- A payload at HIGH risk used by the scheduler witness. -/
def payloadH : Payload :=
  ⟨"A", "X", 0, 0, 0, .HIGH, .MEDIUM, true, [], 0⟩

/-- Concrete per-pair outcomes of a daily pass: the pair with disease
"bad" raises, every other pair returns a successful HIGH result. -/
def outcomeW : Combo → PredOutcome := fun c =>
  if c.disease = "bad" then .raises else .ret (.ok payloadH)

/-- Concrete combination list for the scheduler witness. -/
def combosW : List Combo := [⟨"A", "X"⟩, ⟨"bad", "Y"⟩, ⟨"B", "Z"⟩]

/-- Witness for C7 at a concrete input: a three-pair pass whose middle
pair raises. -/
theorem daily_pass_isolation_witness :
    ((⟨"A", "X"⟩ : Combo) ∈ combosW ∧
      outcomeW ⟨"A", "X"⟩ = .ret (.ok payloadH) ∧
      SchedEffect.addAlert "A" "X" payloadH.risk_level
        payloadH.predicted_cases_7d payloadH.confidence ∈
          run_daily_pass outcomeW combosW) ∧
    (outcomeW ⟨"bad", "Y"⟩ = .raises ∧
      run_daily_pass outcomeW ([⟨"A", "X"⟩] ++ ⟨"bad", "Y"⟩ :: [⟨"B", "Z"⟩]) =
        [(⟨"A", "X"⟩ : Combo)].flatMap (processPair outcomeW) ++
          SchedEffect.logError "bad" "Y" ::
            ([(⟨"B", "Z"⟩ : Combo)].flatMap (processPair outcomeW) ++ [.commit])) :=
  ⟨⟨by decide, by decide,
    (daily_pass_isolation outcomeW combosW).2.1 ⟨"A", "X"⟩ (by decide) payloadH
      (by decide)⟩,
   ⟨by decide,
    (daily_pass_isolation outcomeW combosW).2.2.2 [⟨"A", "X"⟩] [⟨"B", "Z"⟩]
      ⟨"bad", "Y"⟩ (by decide)⟩⟩

/-- C9 (amended): in the hotspot aggregation every emitted location's
`risk_score` is the sum, over its successfully predicted diseases, of the
scores CRITICAL=4 / HIGH=3 / MEDIUM=2 / LOW=1, and the output is ranked by
descending `risk_score`; but only locations with at least one HIGH or
CRITICAL disease are emitted, so a location whose diseases are all at
MEDIUM or LOW (such as the MEDIUM/MEDIUM one of the claim's scenario)
does not appear at all. -/
theorem hotspot_scores (outcome : String → String → PredOutcome)
    (locations : List (String × List String)) :
    (∀ e ∈ get_outbreak_hotspots outcome locations,
      ∃ ld ∈ locations, e.location = ld.1 ∧
        e.risk_score = ((hotspotOks outcome ld.1 ld.2).map
          (fun x => riskScore x.2.risk_level)).sum ∧
        e.total_diseases = ld.2.length ∧
        0 < e.high_risk_diseases) ∧
    (∀ ld ∈ locations, ∀ e, hotspotFor outcome ld.1 ld.2 = some e →
      e ∈ get_outbreak_hotspots outcome locations) ∧
    List.Sorted (fun a b => b.risk_score ≤ a.risk_score)
      (get_outbreak_hotspots outcome locations) := by
  refine ⟨?_, ?_, ?_⟩
  · intro e he
    unfold get_outbreak_hotspots at he
    obtain ⟨ld, hld, hsome⟩ := List.mem_filterMap.mp (List.mem_mergeSort.mp he)
    unfold hotspotFor at hsome
    dsimp only at hsome
    split_ifs at hsome with hpos
    · obtain rfl : _ = e := Option.some.inj hsome
      exact ⟨ld, hld, rfl, rfl, rfl, hpos⟩
  · intro ld hld e hsome
    unfold get_outbreak_hotspots
    exact List.mem_mergeSort.mpr (List.mem_filterMap.mpr ⟨ld, hld, hsome⟩)
  · unfold get_outbreak_hotspots
    have hs := @List.sorted_mergeSort HotspotEntry
      (fun (a b : HotspotEntry) => decide (b.risk_score ≤ a.risk_score))
      (fun a b c h1 h2 => by
        simp only [decide_eq_true_eq] at *
        exact le_trans h2 h1)
      (fun a b => by
        rcases le_total b.risk_score a.risk_score with h | h <;> simp [h])
      (locations.filterMap fun ld => hotspotFor outcome ld.1 ld.2)
    exact hs.imp (fun h => of_decide_eq_true h)

/-- A minimal successful payload at a given risk level, used by the
hotspot witness and counterexample. -/
def payloadOf (r : RiskLevel) : Payload :=
  ⟨"", "", 0, 0, 0, r, .MEDIUM, true, [], 0⟩

/-- Concrete per-(disease, location) prediction outcomes: d1 CRITICAL,
d2 HIGH, d3 LOW, every other disease MEDIUM. -/
def resultsW : String → String → PredOutcome := fun d _ =>
  if d = "d1" then .ret (.ok (payloadOf .CRITICAL))
  else if d = "d2" then .ret (.ok (payloadOf .HIGH))
  else if d = "d3" then .ret (.ok (payloadOf .LOW))
  else .ret (.ok (payloadOf .MEDIUM))

/-- Concrete location list: L1 has diseases d1/d2/d3
(CRITICAL/HIGH/LOW), L2 has d4/d5 (MEDIUM/MEDIUM). -/
def locsW : List (String × List String) :=
  [("L1", ["d1", "d2", "d3"]), ("L2", ["d4", "d5"])]

/-- The hotspot entry produced for L1. -/
def entryL1 : HotspotEntry :=
  ⟨"L1", 2, 3, 8, [⟨"d1", .CRITICAL, 0⟩, ⟨"d2", .HIGH, 0⟩, ⟨"d3", .LOW, 0⟩]⟩

/-- Witness for C9 (amended) at a concrete input: L1's entry scores
4+3+1 = 8 and is emitted. -/
theorem hotspot_scores_witness :
    ("L1", ["d1", "d2", "d3"]) ∈ locsW ∧
    hotspotFor resultsW "L1" ["d1", "d2", "d3"] = some entryL1 ∧
    entryL1 ∈ get_outbreak_hotspots resultsW locsW :=
  ⟨by decide, by decide,
   (hotspot_scores resultsW locsW).2.1 ("L1", ["d1", "d2", "d3"]) (by decide)
     entryL1 (by decide)⟩

unseal List.merge List.mergeSort in
/-- Counterexample to C9 as stated: in the claim's own scenario the
MEDIUM/MEDIUM location L2 does not appear in the hotspot list at all
(its per-disease scores would sum to 4, but it has no HIGH or CRITICAL
disease, so it is filtered out); only L1 is emitted, with score 8. -/
theorem hotspot_filter_cex :
    (get_outbreak_hotspots resultsW locsW).map
      (fun e => (e.location, e.risk_score)) = [("L1", 8)] ∧
    hotspotFor resultsW "L2" ["d4", "d5"] = none ∧
    ((hotspotOks resultsW "L2" ["d4", "d5"]).map
      (fun x => riskScore x.2.risk_level)).sum = 4 := by
  refine ⟨by decide, by decide, by decide⟩

end ClinicalSupport
